import Mathlib

/-!
Verification of the realtime-console orchestration logic
(`src/pages/ConsolePage.vue`) against its natural-language specification.

The script section of `ConsolePage.vue` is shallowly embedded below:
each handler or method becomes a pure Lean function over explicit state,
JS objects become structures, JS `undefined`/`null` become `Option`, and
fallible asynchronous steps become `Except` values or explicit fault flags.
External collaborators (the realtime client, `WavRecorder`,
`WavStreamPlayer`, the decode utility, the weather fetch) are modelled at
their interface boundary exactly as the component observes them.
-/

/- ## Event coalescer (the `realtime.event` listener, ConsolePage.vue 402-412) -/

/-- Source tag of a protocol event (`source: 'client' | 'server'`). -/
inductive EventSource where
  | client
  | server
deriving DecidableEq, Repr

/-- An inbound/outbound protocol event as delivered to the `realtime.event`
listener: a `source` tag plus the payload's `type` string (`event.type`).
Other payload fields are opaque to the coalescer and are omitted. -/
structure RtEvent where
  source : EventSource
  etype : String
deriving DecidableEq, Repr

/-- A stored record of the event log (`RealtimeEvent` in ConsolePage.vue):
`source`, the payload `type`, and the optional merge counter `count`
(absent on a freshly appended record). -/
structure LogRecord where
  source : EventSource
  etype : String
  count : Option Nat
deriving DecidableEq, Repr

/-- The `realtime.event` listener body (ConsolePage.vue 402-412): reads the
last stored record, and if its payload `type` equals the new event's
`type` (only the types are compared — the code tests
`lastEvent?.event.type === realtimeEvent.event.type`), bumps that record's
`count` (unset counts as 0) and replaces it in place
(`current.slice(0, -1).concat(lastEvent)`); otherwise appends the new
event as a fresh record with `count` unset (`current.concat(realtimeEvent)`). -/
def appendEvent (log : List LogRecord) (e : RtEvent) : List LogRecord :=
  match log.getLast? with
  | some lastEvent =>
    if lastEvent.etype = e.etype then
      log.dropLast ++ [{ lastEvent with count := some (lastEvent.count.getD 0 + 1) }]
    else
      log ++ [⟨e.source, e.etype, none⟩]
  | none => log ++ [⟨e.source, e.etype, none⟩]

/-- Delivering a whole sequence of protocol events in arrival order. -/
def applyEvents (log : List LogRecord) (es : List RtEvent) : List LogRecord :=
  es.foldl appendEvent log

/- ## Interrupt / cancellation (ConsolePage.vue 416-422 and 509-514) -/

/-- The value returned by the playback collaborator's `interrupt()`:
`null` when idle is the outer `Option`; a returned object carries a
possibly-missing `trackId` and the sample `offset`. -/
structure TrackSampleOffset where
  trackId : Option String
  offset : Int
deriving DecidableEq, Repr

/-- The cancellation request sent to the remote endpoint after an
interrupt, shared verbatim by the `conversation.interrupted` listener
(ConsolePage.vue 416-422) and `startRecording` (509-514): the code runs
`if (trackSampleOffset?.trackId) { const { trackId, offset } = trackSampleOffset;
await client.cancelResponse(trackId, offset); }`, so a request is sent
exactly when the result is non-null and its `trackId` is a truthy
(present, non-empty) string, and it carries that `trackId` and `offset`
unchanged. `none` means no `cancelResponse` call is made. -/
def cancelRequestOfInterrupt : Option TrackSampleOffset → Option (String × Int)
  | none => none
  | some t =>
    match t.trackId with
    | some id => if id = "" then none else some (id, t.offset)
    | none => none

/-- The claim's notion of the playback collaborator reporting no playing
track: `interrupt()` returned `null`, or an object with no `trackId`. -/
def reportsNoTrack : Option TrackSampleOffset → Bool
  | none => true
  | some t => t.trackId.isNone

/- ## Conversation reconciler (the `conversation.updated` listener, ConsolePage.vue 424-434) -/

/-- Status of a conversation item; the listener only distinguishes
`completed` from everything else. -/
inductive ItemStatus where
  | in_progress
  | completed
deriving DecidableEq, Repr

/-- A decoded playable file handle, as produced by the external decode
utility. Modelled as the decoded sample data plus the target rate, so
that decoding is a deterministic function of its inputs. -/
structure WavFile where
  samples : List Int
  sampleRate : Nat
deriving DecidableEq, Repr

/-- The external decode collaborator
(`WavRecorder.decode(audio, fromRate, toRate)`, spec section 6): a
deterministic conversion of raw audio into a playable file handle. Its
internals are outside the orchestration core; only determinism and the
fact that a call is one unit of decode work matter here. -/
def decodeAudio (audio : List Int) (_fromRate toRate : Nat) : WavFile :=
  ⟨audio, toRate⟩

/-- The `formatted` view of an item, restricted to the fields the
`conversation.updated` listener reads or writes: the accumulated raw
audio (`formatted.audio`, `[]` when absent or empty — JS tests
`audio?.length` for truthiness) and the decoded file handle
(`formatted.file`). Transcript/text/tool fields are not touched by this
listener and are omitted. -/
structure FormattedItem where
  audio : List Int
  file : Option WavFile
deriving DecidableEq, Repr

/-- A conversation item as the listener sees it: the stable `id`, the
`status`, and the `formatted` view. -/
structure ConvItem where
  id : String
  status : ItemStatus
  formatted : FormattedItem
deriving DecidableEq, Repr

/-- One call's worth of the decode step of the listener (ConsolePage.vue
429-432): `if (item.status === 'completed' && item.formatted.audio?.length)`
the raw audio is decoded and assigned to `item.formatted.file`. Returns the
mutated item together with the number of decode invocations performed
(1 or 0). There is no guard on `formatted.file`: an already-decoded item
is decoded again. -/
def processItem (it : ConvItem) : ConvItem × Nat :=
  if it.status = ItemStatus.completed ∧ it.formatted.audio ≠ [] then
    ({ it with formatted :=
        { it.formatted with file := some (decodeAudio it.formatted.audio 24000 24000) } }, 1)
  else
    (it, 0)

/-- The reconciler-side state the listener touches: the authoritative item
list (the client conversation store, of which `items.value` is set to a
snapshot), a running counter of decode invocations (work performed, not a
program variable), and the playback enqueue log
(`wavStreamPlayer.add16BitPCM(delta.audio, item.id)` calls). -/
structure ReconcilerState where
  items : List ConvItem
  decodeCalls : Nat
  playbackQueue : List (List Int × String)
deriving DecidableEq, Repr

/-- The audio part of a `conversation.updated` delta (`delta?.audio`). -/
structure UpdateDelta where
  audio : Option (List Int)
deriving DecidableEq, Repr

/-- In-place mutation of the delivered item within the authoritative
snapshot: the delivered `item` is the element with the matching id (item
ids are unique per the conversation invariant), and it is the only one
the listener's decode step can touch. -/
def updateItem (itemId : String) (it : ConvItem) : ConvItem :=
  if it.id = itemId then (processItem it).1 else it

/-- Decode work one listener call performs on one snapshot element: a
decode happens only for the delivered item, and only when the
`processItem` guard holds for it. -/
def decodeTick (itemId : String) (it : ConvItem) : Nat :=
  if it.id = itemId then (processItem it).2 else 0

/-- Total decode work of one listener call over the snapshot. -/
def decodeWork (items : List ConvItem) (itemId : String) : Nat :=
  (items.map (decodeTick itemId)).sum

/-- The `conversation.updated` listener (ConsolePage.vue 424-434): fetch
the authoritative snapshot (`client.conversation.getItems()`), enqueue the
delta audio for playback under the item id when present, run the decode
step on the delivered item (mutating it in place, which mutates the
shared element of the snapshot), and replace `items` with the snapshot. -/
def conversationUpdated (st : ReconcilerState) (itemId : String) (delta : UpdateDelta) :
    ReconcilerState :=
  { items := st.items.map (updateItem itemId)
    decodeCalls := st.decodeCalls + decodeWork st.items itemId
    playbackQueue :=
      match delta.audio with
      | some a => st.playbackQueue ++ [(a, itemId)]
      | none => st.playbackQueue }

/- ## MemoryStore (the `set_memory` tool handler, ConsolePage.vue 331-355, 173-175) -/

/-- The key-value map stored by the `set_memory` tool, modelling a plain
JS object as a map from keys to optionally-present values. -/
def MemStore : Type := String → Option String

/-- The empty object `\x7b\x7d`. -/
def memEmpty : MemStore := fun _ => none

/-- JS spread update `\x7b...current, [key]: value\x7d`: `key` is bound to
`value`, every other key keeps its binding from `current`. -/
def memSet (st : MemStore) (k v : String) : MemStore :=
  fun k2 => if k2 = k then some v else st k2

/-- Result object of the `set_memory` handler (`return \x7b ok: true \x7d`). -/
structure ToolOk where
  ok : Bool
deriving DecidableEq, Repr

/-- The `set_memory` tool handler (ConsolePage.vue 351-354) together with
the `setMemoryKv` helper (173-175). `memoryKv` is declared as
`reactive(\x7b\x7d)` while `setMemoryKv` reads and writes `memoryKv.value`,
so the store actually lives under the `value` property: it is absent
(`undefined`, here `none`) until the first write, and spreading an absent
store yields the empty object. The handler installs
`\x7b...current, [key]: value\x7d` and unconditionally resolves with
`\x7b ok: true \x7d`. -/
def setMemoryHandler (outer : Option MemStore) (key value : String) :
    Option MemStore × ToolOk :=
  (some (memSet (outer.getD memEmpty) key value), ⟨true⟩)

/- ## Marker / coordinates and the `get_weather` tool handler (ConsolePage.vue 32-44, 177-183, 357-399) -/

/-- A measured quantity with units, as built from the weather response
(`\x7b value, units \x7d`). -/
structure Measured where
  value : Rat
  units : String
deriving DecidableEq, Repr

/-- The `Coordinates` interface of ConsolePage.vue: required `lat`/`lng`,
optional `location`, `temperature` and `wind_speed`. JS numbers carry no
arithmetic here, so they are modelled as rationals. -/
structure Coordinates where
  lat : Rat
  lng : Rat
  location : Option String
  temperature : Option Measured
  wind_speed : Option Measured
deriving DecidableEq, Repr

/-- The `setMarker`/`setCoords` helpers (ConsolePage.vue 177-183) applied
to the patch `\x7b lat, lng, location \x7d` that the `get_weather` handler
sends first: `marker.value = \x7b ...marker.value, ...newMarker \x7d`, so
`lat`, `lng` and `location` are overwritten while `temperature` and
`wind_speed` are carried over from the old value (spreading `null` keeps
them absent). -/
def patchBase (old : Option Coordinates) (lat lng : Rat) (location : String) : Coordinates :=
  { lat := lat
    lng := lng
    location := some location
    temperature := Option.bind old Coordinates.temperature
    wind_speed := Option.bind old Coordinates.wind_speed }

/-- The successful weather lookup result as the handler reads it:
`json.current.temperature_2m` / `json.current.wind_speed_10m` with their
units from `json.current_units`. A network failure, or a payload without
these fields, makes the handler's `await`/member accesses throw; both are
folded into the `Except.error` case of the lookup outcome. -/
structure WeatherJson where
  temperature_2m : Rat
  temperature_units : String
  wind_speed_10m : Rat
  wind_speed_units : String
deriving DecidableEq, Repr

/-- The `get_weather` tool handler (ConsolePage.vue 381-398). It first
patches the marker and the coords with `\x7b lat, lng, location \x7d`, then
performs the lookup; on success it patches the marker again with
`temperature` and `wind_speed` and resolves with the raw json, and on
failure the rejection propagates out of the handler (there is no
try/catch), leaving the marker and coords as patched by the first step.
Returns (handler outcome, marker afterwards, coords afterwards). -/
def getWeatherHandler (marker0 coords0 : Option Coordinates) (lat lng : Rat)
    (location : String) (lookup : Except String WeatherJson) :
    Except String WeatherJson × Option Coordinates × Option Coordinates :=
  let m1 := some (patchBase marker0 lat lng location)
  let c1 := some (patchBase coords0 lat lng location)
  match lookup with
  | Except.error e => (Except.error e, m1, c1)
  | Except.ok j =>
    let m2 := some { lat := lat, lng := lng, location := some location,
                     temperature := some ⟨j.temperature_2m, j.temperature_units⟩,
                     wind_speed := some ⟨j.wind_speed_10m, j.wind_speed_units⟩ : Coordinates }
    (Except.ok j, m2, c1)

/- ## Session controller state (ConsolePage.vue 115-143, 196-210, 445-530) -/

/-- The component state plus the observable state of the collaborators, as
far as the orchestration methods read or write it. `memory` is the
`value` property of the `memoryKv` reactive object (see
`setMemoryHandler`); `recorderOpen`/`recorderStreaming` model the
`WavRecorder` device being acquired (`begin`/`end`) and streaming
(`record`/`pause`); `playerOpen` models the `WavStreamPlayer` output sink;
`clientConnected` models `client.isConnected()`; `serverVad` models the
client session's turn-detection configuration being `server_vad`. -/
structure AppState where
  isConnected : Bool
  isRecording : Bool
  canPushToTalk : Bool
  serverVad : Bool
  events : List LogRecord
  items : List ConvItem
  memory : Option MemStore
  coords : Option Coordinates
  marker : Option Coordinates
  recorderOpen : Bool
  recorderStreaming : Bool
  playerOpen : Bool
  clientConnected : Bool

/-- The initial `coords` value and the value `disconnectConversation`
resets it to (ConsolePage.vue 136-139, 483). -/
def defaultCoords : Coordinates :=
  { lat := 37.775593, lng := -122.418137, location := none,
    temperature := none, wind_speed := none }

/-- `changeTurnEndType` (ConsolePage.vue 196-210): switching to manual
(`value = "none"`) pauses the recorder if it is streaming; the session's
turn-detection configuration is updated; switching to `server_vad` while
the client is connected starts recorder streaming; finally
`canPushToTalk` is set exactly when the mode is manual. -/
def changeTurnEndType (s : AppState) (value : String) : AppState :=
  let s1 := if value == "none" && s.recorderStreaming then
      { s with recorderStreaming := false } else s
  let s2 := { s1 with serverVad := value != "none" }
  let s3 := if value == "server_vad" && s2.clientConnected then
      { s2 with recorderStreaming := true } else s2
  { s3 with canPushToTalk := value == "none" }

/-- The push-to-talk control's availability in the template
(ConsolePage.vue 662-666): the button is rendered under
`v-if="isConnected && canPushToTalk"` and additionally disabled unless
both flags hold. -/
def pushToTalkAvailable (s : AppState) : Bool :=
  s.isConnected && s.canPushToTalk

/-- `startRecording` (ConsolePage.vue 503-518): with no guard of any kind
it sets `isRecording`, interrupts playback (sending the cancellation
request computed by `cancelRequestOfInterrupt` from the interrupt result),
and starts the capture stream. Returns the new state and the cancellation
request sent (if any). -/
def startRecording (s : AppState) (interruptResult : Option TrackSampleOffset) :
    AppState × Option (String × Int) :=
  ({ s with isRecording := true, recorderStreaming := true },
   cancelRequestOfInterrupt interruptResult)

/-- Fault model for the three fallible steps of `connectConversation`:
`wavRecorder.begin()` (device acquisition), `wavStreamPlayer.connect()`
(output sink), `client.connect()` (the remote handshake). The spec's
collaborator contracts (sections 4.5, 6 and 7) allow each to fail. -/
structure ConnectFaults where
  recorderBeginFails : Bool
  playerConnectFails : Bool
  clientConnectFails : Bool
deriving DecidableEq, Repr

/-- Outcome of `connectConversation`: the state when the function returns
or when the first failing `await` propagates its rejection, whether it
raised, and whether the initial greeting was sent. -/
structure ConnectOutcome where
  state : AppState
  raised : Bool
  greetingSent : Bool

/-- `connectConversation` (ConsolePage.vue 445-475). It first sets the
state variables — `isConnected` becomes `true` before anything fallible
runs — then awaits `wavRecorder.begin()`, `wavStreamPlayer.connect()` and
`client.connect()` in order, sends the greeting, and starts capture
streaming when the turn-detection type is `server_vad`. There is no
try/catch and no rollback: a rejection at any step propagates, skipping
the remaining steps and leaving everything already done in place. -/
def connectConversation (f : ConnectFaults) (snapshot : List ConvItem) (s : AppState) :
    ConnectOutcome :=
  let s1 := { s with isConnected := true, events := [], items := snapshot }
  if f.recorderBeginFails then ⟨s1, true, false⟩
  else
    let s2 := { s1 with recorderOpen := true }
    if f.playerConnectFails then ⟨s2, true, false⟩
    else
      let s3 := { s2 with playerOpen := true }
      if f.clientConnectFails then ⟨s3, true, false⟩
      else
        let s4 := { s3 with clientConnected := true }
        let s5 := if s4.serverVad then { s4 with recorderStreaming := true } else s4
        ⟨s5, false, true⟩

/-- Fault model for the three fallible teardown steps of
`disconnectConversation`: `client.disconnect()`, `wavRecorder.end()` and
`wavStreamPlayer.interrupt()`. -/
structure DisconnectFaults where
  clientDisconnectFails : Bool
  recorderEndFails : Bool
  playerInterruptFails : Bool
deriving DecidableEq, Repr

/-- Outcome of `disconnectConversation`: the state when the function
returns or when the first failing step propagates, whether it raised, and
which teardown steps were attempted at all. -/
structure DisconnectOutcome where
  state : AppState
  raised : Bool
  clientDisconnectRan : Bool
  recorderEndRan : Bool
  playerInterruptRan : Bool

/-- The unconditional state resets at the top of `disconnectConversation`
(ConsolePage.vue 479-484): connection flag cleared, event log and item
list emptied, `memoryKv.value` set to the empty object, `coords` restored
to the default, `marker` set to `null`. -/
def resetOnDisconnect (s : AppState) : AppState :=
  { s with isConnected := false, events := [], items := [],
           memory := some memEmpty, coords := some defaultCoords, marker := none }

/-- `disconnectConversation` (ConsolePage.vue 478-500). The state resets
run first and unconditionally; then `client.disconnect()`,
`await wavRecorder.end()` and `await wavStreamPlayer.interrupt()` run in
order with no try/catch, so a failure in any of them propagates out of
the function and the later steps never run. -/
def disconnectConversation (f : DisconnectFaults) (s : AppState) : DisconnectOutcome :=
  let s1 := resetOnDisconnect s
  if f.clientDisconnectFails then ⟨s1, true, true, false, false⟩
  else
    let s2 := { s1 with clientConnected := false }
    if f.recorderEndFails then ⟨s2, true, true, true, false⟩
    else
      let s3 := { s2 with recorderOpen := false, recorderStreaming := false }
      if f.playerInterruptFails then ⟨s3, true, true, true, true⟩
      else ⟨s3, false, true, true, true⟩

/- ## Render loop gate (ConsolePage.vue 143, 263-321, 436-443) -/

/-- A Vue ref holding a boolean, as returned by `ref(false)`: an object
with a `value` property. -/
structure VueRefBool where
  value : Bool
deriving DecidableEq, Repr

/-- JS truthiness of an object reference: any object — a Vue ref included —
is truthy, regardless of the boolean stored in its `value` property. -/
def jsObjectTruthy (_r : VueRefBool) : Bool :=
  true

/-- The scheduling gate of the render loop (ConsolePage.vue 263-321):
`render` runs `if (isLoaded) \x7b ... window.requestAnimationFrame(render); \x7d`,
testing the ref object itself, so this returns whether a next frame is
requested given the `isLoaded` ref. -/
def renderSchedulesNextFrame (isLoaded : VueRefBool) : Bool :=
  jsObjectTruthy isLoaded

/-- The gate the surrounding code intends (the comments at
ConsolePage.vue 437 and 442 say setting the flag starts and stops the
loop): test the boolean stored in the ref. -/
def renderGateIntended (isLoaded : VueRefBool) : Bool :=
  isLoaded.value

/- ## Concrete states used to exercise the definitions -/

/-- A completed conversation item carrying non-empty audio and no decoded
file yet. -/
def demoItem : ConvItem :=
  ⟨"item_1", ItemStatus.completed, ⟨[1, 2, 3], none⟩⟩

/-- A reconciler state whose snapshot holds just `demoItem`, with no
decode work done yet. -/
def demoReconcilerState : ReconcilerState :=
  ⟨[demoItem], 0, []⟩

/-- The component's state as it is on mount (ConsolePage.vue 115-143):
disconnected, manual mode, empty log and item list, no memory written
yet, default coords, no marker, collaborators closed. -/
def initialAppState : AppState :=
  { isConnected := false, isRecording := false, canPushToTalk := true, serverVad := false,
    events := [], items := [], memory := none, coords := some defaultCoords, marker := none,
    recorderOpen := false, recorderStreaming := false, playerOpen := false,
    clientConnected := false }

/-- A reachable connected state: after a successful `connectConversation`,
one server event logged, one item present, one memory key written. -/
def connectedAppState : AppState :=
  { initialAppState with
    isConnected := true, recorderOpen := true, playerOpen := true, clientConnected := true,
    events := [⟨EventSource.server, "session.created", none⟩],
    items := [demoItem],
    memory := some (memSet memEmpty "city" "SF") }

/-- Fault scenario: only `client.disconnect()` fails during teardown. -/
def faultClientDisconnect : DisconnectFaults :=
  ⟨true, false, false⟩

/-- Fault scenario: devices open fine, the remote handshake fails. -/
def faultHandshake : ConnectFaults :=
  ⟨false, false, true⟩

/- ## Helper lemmas -/

/-- A single append never shrinks the log. -/
theorem appendEvent_length_le (log : List LogRecord) (e : RtEvent) :
    log.length ≤ (appendEvent log e).length := by
  unfold appendEvent
  cases h : log.getLast? with
  | none => simp
  | some lastEvent =>
    by_cases hEq : lastEvent.etype = e.etype
    · simp only [hEq, if_true, List.length_append, List.length_dropLast, List.length_singleton]
      omega
    · simp [hEq]

/-- The decode step does not change an item's id. -/
theorem processItem_id (it : ConvItem) : ((processItem it).1).id = it.id := by
  by_cases h : it.status = ItemStatus.completed ∧ it.formatted.audio ≠ []
  · simp [processItem, h]
  · simp [processItem, h]

/-- Decoding is deterministic and does not change `id`, `status` or
`audio`, so running the decode step on an already-processed item yields
the same item and the same amount of decode work as the first run. -/
theorem processItem_processItem (it : ConvItem) :
    processItem (processItem it).1 = ((processItem it).1, (processItem it).2) := by
  by_cases h : it.status = ItemStatus.completed ∧ it.formatted.audio ≠ []
  · simp [processItem, h]
  · simp [processItem, h]

/-- The in-place snapshot mutation is idempotent on each element. -/
theorem updateItem_updateItem (itemId : String) (it : ConvItem) :
    updateItem itemId (updateItem itemId it) = updateItem itemId it := by
  unfold updateItem
  by_cases h : it.id = itemId
  · rw [if_pos h, if_pos (by rw [processItem_id]; exact h), processItem_processItem]
  · rw [if_neg h, if_neg h]

/-- The decode work an element induces is unchanged by a previous run of
the decode step on it. -/
theorem decodeTick_updateItem (itemId : String) (it : ConvItem) :
    decodeTick itemId (updateItem itemId it) = decodeTick itemId it := by
  unfold decodeTick updateItem
  by_cases h : it.id = itemId
  · rw [if_pos h, if_pos (by rw [processItem_id]; exact h), processItem_processItem, if_pos h]
  · simp only [if_neg h]

/-- Mapping a pointwise-idempotent function twice is the same as once. -/
theorem map_idem_of_pointwise {α : Type} (f : α → α) (hf : ∀ a, f (f a) = f a)
    (l : List α) : (l.map f).map f = l.map f := by
  induction l with
  | nil => rfl
  | cons a l ih => simp [hf, ih]

/-- Mapping `g` after `f` is the same as mapping `g`, when `f` does not
change the `g`-value of any element. -/
theorem map_after_of_pointwise {α β : Type} (f : α → α) (g : α → β)
    (hg : ∀ a, g (f a) = g a) (l : List α) : (l.map f).map g = l.map g := by
  induction l with
  | nil => rfl
  | cons a l ih => simp [hg, ih]

/- ## Claim theorems -/

/-- C1: whenever an interrupt is performed (push-to-talk start or a
`conversation.interrupted` event) and the playback collaborator's
`interrupt()` returns a playing track (a non-null result with a present,
non-empty `trackId`), the cancellation request carries exactly that
`trackId` and that sample offset; when `interrupt()` reports no playing
track (null, or a missing `trackId`), no cancellation request is sent.
The last conjunct ties the push-to-talk site (`startRecording`) to the
same cancellation computation. -/
theorem C1_interrupt_sample_accuracy (r s0 : Option TrackSampleOffset) (st : AppState)
    (id : String) (off : Int) (hr : r = some ⟨some id, off⟩) (hid : id ≠ "")
    (hs : reportsNoTrack s0 = true) :
    cancelRequestOfInterrupt r = some (id, off) ∧
    cancelRequestOfInterrupt s0 = none ∧
    (startRecording st r).2 = cancelRequestOfInterrupt r := by
  subst hr
  refine ⟨by simp [cancelRequestOfInterrupt, hid], ?_, rfl⟩
  match s0 with
  | none => rfl
  | some t =>
    cases ht : t.trackId with
    | none => simp [cancelRequestOfInterrupt, ht]
    | some id2 => simp [reportsNoTrack, ht] at hs

/-- C1 witness: the spec's own example, a playing track
`(trackId := "t1", offset := 4800)` and an idle interrupt result. -/
theorem C1_interrupt_sample_accuracy_witness :
    cancelRequestOfInterrupt (some ⟨some "t1", 4800⟩) = some ("t1", 4800) ∧
    cancelRequestOfInterrupt none = none ∧
    (startRecording initialAppState (some ⟨some "t1", 4800⟩)).2
      = cancelRequestOfInterrupt (some ⟨some "t1", 4800⟩) :=
  C1_interrupt_sample_accuracy (some ⟨some "t1", 4800⟩) none initialAppState "t1" 4800 rfl
    (by decide) (by decide)

/-- C2 counterexample: the claim says an event is merged into the last
record if and only if source AND type both match. The listener compares
only `event.type` (ConsolePage.vue 405), so a `server` event is merged
into a `client` record of the same type: the log keeps length 1 and the
record's count is bumped, where the claim requires a fresh record
(length 2). -/
theorem C2_counterexample :
    appendEvent [⟨EventSource.client, "session.update", none⟩]
        ⟨EventSource.server, "session.update"⟩
      = [⟨EventSource.client, "session.update", some 1⟩] ∧
    (appendEvent [⟨EventSource.client, "session.update", none⟩]
        ⟨EventSource.server, "session.update"⟩).length ≠ 2 := by
  refine ⟨by decide, by decide⟩

/-- C2 amended: for every append onto a non-empty log, the new event is
merged into the last stored record (count bumped, unset counting as 0,
log length unchanged) if and only if the new event's type equals the last
record's type — the source is not compared; otherwise it is appended as a
new record with count unset. -/
theorem C2_merge_on_type_only (log : List LogRecord) (e : RtEvent) (lastEvent : LogRecord)
    (h : log.getLast? = some lastEvent) :
    ((appendEvent log e).length = log.length ↔ lastEvent.etype = e.etype) ∧
    appendEvent log e =
      (if lastEvent.etype = e.etype then
        log.dropLast ++ [{ lastEvent with count := some (lastEvent.count.getD 0 + 1) }]
      else
        log ++ [⟨e.source, e.etype, none⟩]) := by
  have hne : log ≠ [] := by
    intro hl
    rw [hl] at h
    simp at h
  have hpos : 0 < log.length := List.length_pos.mpr hne
  have hform : appendEvent log e =
      (if lastEvent.etype = e.etype then
        log.dropLast ++ [{ lastEvent with count := some (lastEvent.count.getD 0 + 1) }]
      else
        log ++ [⟨e.source, e.etype, none⟩]) := by
    unfold appendEvent
    rw [h]
  refine ⟨?_, hform⟩
  rw [hform]
  by_cases hEq : lastEvent.etype = e.etype
  · simp only [hEq, if_true, List.length_append, List.length_dropLast, List.length_singleton,
      iff_true]
    omega
  · simp only [hEq, if_false, List.length_append, List.length_singleton, iff_false]
    omega

/-- C2 amended, witness: a singleton log whose record's type differs from
the incoming event's type. -/
theorem C2_merge_on_type_only_witness :
    ((appendEvent [⟨EventSource.client, "a", none⟩] ⟨EventSource.client, "b"⟩).length = 1 ↔
        ("a" : String) = "b") ∧
    appendEvent [⟨EventSource.client, "a", none⟩] ⟨EventSource.client, "b"⟩ =
      (if ("a" : String) = "b" then [⟨EventSource.client, "a", some 1⟩]
       else [⟨EventSource.client, "a", none⟩, ⟨EventSource.client, "b", none⟩]) :=
  C2_merge_on_type_only [⟨EventSource.client, "a", none⟩] ⟨EventSource.client, "b"⟩
    ⟨EventSource.client, "a", none⟩ rfl

/-- C6: fifty consecutive server events of the same type delivered into
an empty log produce exactly one record with count 49 (the first
occurrence leaves count unset, each later one bumps it), and over every
sequence of appends the log length is monotonically non-decreasing. -/
theorem C6_burst_counting :
    applyEvents [] (List.replicate 50 ⟨EventSource.server, "response.audio.delta"⟩)
      = [⟨EventSource.server, "response.audio.delta", some 49⟩] ∧
    ∀ (log : List LogRecord) (es : List RtEvent),
      log.length ≤ (applyEvents log es).length := by
  refine ⟨by decide, ?_⟩
  intro log es
  induction es generalizing log with
  | nil => exact Nat.le_refl _
  | cons e es ih => exact le_trans (appendEvent_length_le log e) (ih (appendEvent log e))

/-- C3 counterexample: the claim says a completed item with non-empty
audio is decoded exactly once, delivering the same update again
performing no second decode. The listener's guard
(`item.status === 'completed' && item.formatted.audio?.length`) never
inspects `formatted.file`, so delivering the same update twice for
`demoItem` runs the decode twice, not once. -/
theorem C3_counterexample :
    (conversationUpdated (conversationUpdated demoReconcilerState "item_1" ⟨none⟩)
        "item_1" ⟨none⟩).decodeCalls = 2 ∧
    (conversationUpdated (conversationUpdated demoReconcilerState "item_1" ⟨none⟩)
        "item_1" ⟨none⟩).decodeCalls ≠ 1 := by
  refine ⟨by decide, by decide⟩

/-- C3 amended: delivering the same conversation update twice in a row
leaves the item sequence (and hence each item's decoded-audio fields)
value-unchanged, because the decode utility is deterministic and the
decode step preserves id, status and audio; but the decode work is not
performed exactly once — the second delivery performs exactly as many
decode invocations as the first, since the listener never checks whether
`formatted.file` is already set. -/
theorem C3_snapshot_idempotent_but_decode_repeats (st : ReconcilerState) (itemId : String)
    (delta : UpdateDelta) :
    (conversationUpdated (conversationUpdated st itemId delta) itemId delta).items
      = (conversationUpdated st itemId delta).items ∧
    (conversationUpdated (conversationUpdated st itemId delta) itemId delta).decodeCalls
        - (conversationUpdated st itemId delta).decodeCalls
      = (conversationUpdated st itemId delta).decodeCalls - st.decodeCalls := by
  have hitems : ((st.items.map (updateItem itemId)).map (updateItem itemId))
      = st.items.map (updateItem itemId) :=
    map_idem_of_pointwise (updateItem itemId) (updateItem_updateItem itemId) st.items
  have hwork : decodeWork (st.items.map (updateItem itemId)) itemId
      = decodeWork st.items itemId := by
    unfold decodeWork
    rw [map_after_of_pointwise (updateItem itemId) (decodeTick itemId)
      (decodeTick_updateItem itemId) st.items]
  constructor
  · show ((st.items.map (updateItem itemId)).map (updateItem itemId))
      = st.items.map (updateItem itemId)
    exact hitems
  · show st.decodeCalls + decodeWork st.items itemId
        + decodeWork (st.items.map (updateItem itemId)) itemId
        - (st.decodeCalls + decodeWork st.items itemId)
      = st.decodeCalls + decodeWork st.items itemId - st.decodeCalls
    rw [hwork]
    omega

/-- C4 counterexample: the claim says `disconnect()` never raises and
runs every teardown step even if an earlier one fails. From a reachable
connected state, if `client.disconnect()` fails, the function raises and
neither `wavRecorder.end()` nor `wavStreamPlayer.interrupt()` runs. -/
theorem C4_counterexample :
    (disconnectConversation faultClientDisconnect connectedAppState).raised = true ∧
    (disconnectConversation faultClientDisconnect connectedAppState).recorderEndRan = false ∧
    (disconnectConversation faultClientDisconnect connectedAppState).playerInterruptRan
      = false :=
  ⟨rfl, rfl, rfl⟩

/-- C4 amended: `disconnectConversation` resets the connection flag, the
event log, the item sequence, the MemoryStore, the coords and the Marker
unconditionally before any fallible teardown step, so from any state and
under any combination of teardown failures it terminates with the session
disconnected and that state clean; but it raises exactly when some
teardown step fails, and the steps after the first failing one are
skipped rather than still being run. -/
theorem C4_reset_unconditional_teardown_fragile (f : DisconnectFaults) (s : AppState) :
    (disconnectConversation f s).state.isConnected = false ∧
    (disconnectConversation f s).state.events = [] ∧
    (disconnectConversation f s).state.items = [] ∧
    (disconnectConversation f s).state.memory = some memEmpty ∧
    (disconnectConversation f s).state.marker = none ∧
    (disconnectConversation f s).state.coords = some defaultCoords ∧
    (disconnectConversation f s).raised
      = (f.clientDisconnectFails || f.recorderEndFails || f.playerInterruptFails) ∧
    (disconnectConversation f s).clientDisconnectRan = true ∧
    (disconnectConversation f s).recorderEndRan = !f.clientDisconnectFails ∧
    (disconnectConversation f s).playerInterruptRan
      = (!f.clientDisconnectFails && !f.recorderEndFails) := by
  obtain ⟨a, b, c⟩ := f
  cases a <;> cases b <;> cases c <;>
    simp [disconnectConversation, resetOnDisconnect]

/-- C5 counterexample: the claim says a failed handshake leaves the
session Disconnected and the capture/playback collaborators closed.
Starting from the initial state, if `client.connect()` fails after both
devices opened, `connectConversation` raises while `isConnected` is
`true` and both devices are left open. -/
theorem C5_counterexample :
    (connectConversation faultHandshake [] initialAppState).raised = true ∧
    (connectConversation faultHandshake [] initialAppState).state.isConnected = true ∧
    (connectConversation faultHandshake [] initialAppState).state.recorderOpen = true ∧
    (connectConversation faultHandshake [] initialAppState).state.playerOpen = true :=
  ⟨rfl, rfl, rfl, rfl⟩

/-- C5 amended: if the remote handshake of `connectConversation` fails,
the error propagates to the caller with no rollback: the connected flag —
set optimistically before any fallible step — remains `true`, the
microphone and playback collaborators opened before the failure remain
open, the client connection is left as it was, and the greeting is never
sent. -/
theorem C5_connect_failure_no_rollback (snapshot : List ConvItem) (s : AppState) :
    (connectConversation ⟨false, false, true⟩ snapshot s).raised = true ∧
    (connectConversation ⟨false, false, true⟩ snapshot s).state.isConnected = true ∧
    (connectConversation ⟨false, false, true⟩ snapshot s).state.recorderOpen = true ∧
    (connectConversation ⟨false, false, true⟩ snapshot s).state.playerOpen = true ∧
    (connectConversation ⟨false, false, true⟩ snapshot s).state.clientConnected
      = s.clientConnected ∧
    (connectConversation ⟨false, false, true⟩ snapshot s).greetingSent = false :=
  ⟨rfl, rfl, rfl, rfl, rfl, rfl⟩

/-- C7 counterexample: the claim says `startRecording` is a no-op unless
the session is Connected in Manual mode. Invoked in the initial
disconnected state it still flips `isRecording` and starts the capture
stream. -/
theorem C7_counterexample :
    initialAppState.isConnected = false ∧
    initialAppState.isRecording = false ∧
    ((startRecording initialAppState none).1).isRecording = true ∧
    ((startRecording initialAppState none).1).recorderStreaming = true :=
  ⟨rfl, rfl, rfl, rfl⟩

/-- C7 amended: `startRecording` itself performs no state guard — invoked
in any state it marks recording and starts the capture stream; the
Connected-and-Manual restriction lives only in the UI, which makes the
push-to-talk control available exactly when the session is connected and
`canPushToTalk` holds, and `canPushToTalk` is set exactly when the
turn-detection mode is manual. -/
theorem C7_guard_is_ui_only (s : AppState) (r : Option TrackSampleOffset) (v : String) :
    ((startRecording s r).1).isRecording = true ∧
    ((startRecording s r).1).recorderStreaming = true ∧
    (pushToTalkAvailable s = true ↔ s.isConnected = true ∧ s.canPushToTalk = true) ∧
    (changeTurnEndType s v).canPushToTalk = (v == "none") := by
  refine ⟨rfl, rfl, ?_, rfl⟩
  simp [pushToTalkAvailable]

/-- C8: the claim says the render loop schedules its next iteration only
while the `loaded` flag is set. The code gates on `if (isLoaded)` — the
ref object itself, which as a JS object is always truthy — instead of
`isLoaded.value`, so even after `onUnmounted` clears the flag the loop
still requests the next animation frame, while the gate the comments
describe would stop it. -/
theorem C8_render_loop_never_stops :
    renderSchedulesNextFrame ⟨false⟩ = true ∧ renderGateIntended ⟨false⟩ = false :=
  ⟨rfl, rfl⟩

/-- C9 counterexample: the claim says the `get_weather` handler reports a
lookup failure as a tool output without throwing. On the spec's own
input `(lat 10, lng 20, location "X")` with a failing lookup, the handler
rejects — the error propagates out of it — rather than resolving with any
tool output; the marker is nevertheless left patched with exactly those
fields and no temperature or wind data. -/
theorem C9_counterexample :
    (getWeatherHandler none none 10 20 "X" (Except.error "lookup failed")).1
      = Except.error "lookup failed" ∧
    (getWeatherHandler none none 10 20 "X" (Except.error "lookup failed")).2.1
      = some { lat := 10, lng := 20, location := some "X",
               temperature := none, wind_speed := none } :=
  ⟨rfl, rfl⟩

/-- C9 amended: if the `get_weather` handler is invoked with lat, lng and
location and the weather lookup then fails, the Marker has already been
patched with exactly those lat/lng/location fields and gains no
temperature or wind-speed fields (any previously stored ones are carried
over unchanged), the coords are patched the same way, and the handler
propagates the lookup failure to its caller — the tool-dispatch
collaborator — instead of returning a failure tool output itself. -/
theorem C9_marker_patched_failure_propagates (marker0 coords0 : Option Coordinates)
    (lat lng : Rat) (location : String) (e : String) :
    (getWeatherHandler marker0 coords0 lat lng location (Except.error e)).1
      = Except.error e ∧
    (getWeatherHandler marker0 coords0 lat lng location (Except.error e)).2.1
      = some { lat := lat, lng := lng, location := some location,
               temperature := Option.bind marker0 Coordinates.temperature,
               wind_speed := Option.bind marker0 Coordinates.wind_speed } ∧
    (getWeatherHandler marker0 coords0 lat lng location (Except.error e)).2.2
      = some { lat := lat, lng := lng, location := some location,
               temperature := Option.bind coords0 Coordinates.temperature,
               wind_speed := Option.bind coords0 Coordinates.wind_speed } :=
  ⟨rfl, rfl, rfl⟩

/-- C10: for every prior contents of the MemoryStore and every key/value
pair, the `set_memory` handler maps the key to the value, leaves every
other key's value unchanged, and resolves with ok = true
unconditionally. -/
theorem C10_set_memory_merge (outer : Option MemStore) (key value k2 : String)
    (h : k2 ≠ key) :
    ((setMemoryHandler outer key value).1.getD memEmpty) key = some value ∧
    ((setMemoryHandler outer key value).1.getD memEmpty) k2 = (outer.getD memEmpty) k2 ∧
    (setMemoryHandler outer key value).2.ok = true := by
  refine ⟨?_, ?_, rfl⟩
  · simp [setMemoryHandler, memSet]
  · simp [setMemoryHandler, memSet, h]

/-- C10 witness: the spec's own scenario — writing `city := "SF"` into an
untouched store binds `city`, leaves `country` unbound, and returns
ok = true. -/
theorem C10_set_memory_merge_witness :
    ((setMemoryHandler none "city" "SF").1.getD memEmpty) "city" = some "SF" ∧
    ((setMemoryHandler none "city" "SF").1.getD memEmpty) "country"
      = ((none : Option MemStore).getD memEmpty) "country" ∧
    (setMemoryHandler none "city" "SF").2.ok = true :=
  C10_set_memory_merge none "city" "SF" "country" (by decide)
